import Mathlib

/-!
Shallow embedding of `itchatmp/components/register.py`: the webhook
pipeline (handshake verification, message verification, handler registry,
dispatch and reply formatting) of the itchatmp repository.

Python dictionaries are modelled as association lists over `String`,
Python exceptions as `Except String`, and the external collaborators
(`oauth`, `deconstruct_msg`, `construct_msg`, `decrypt_msg`, `encrypt_msg`
from other modules of the package) as fields of a `Codec` record so that
theorems quantify over them.
-/

namespace Itchatmp

/-- Decidable equality for `Except`, used to evaluate pipeline outcomes on
concrete inputs. -/
instance {ε α : Type} [DecidableEq ε] [DecidableEq α] : DecidableEq (Except ε α)
  | .error e, .error f =>
      if h : e = f then .isTrue (by rw [h])
      else .isFalse (fun hc => h (by cases hc; rfl))
  | .error _, .ok _ => .isFalse (fun hc => by cases hc)
  | .ok _, .error _ => .isFalse (fun hc => by cases hc)
  | .ok a, .ok b =>
      if h : a = b then .isTrue (by rw [h])
      else .isFalse (fun hc => h (by cases hc; rfl))

/-- Association-list lookup, the model of Python `dict.get(key)`. -/
def alGet? {α : Type} : List (String × α) → String → Option α
  | [], _ => none
  | (k, v) :: rest, key => if k = key then some v else alGet? rest key

/-- Python `dict.get(key, default)`. -/
def alGetD {α : Type} (d : List (String × α)) (key : String) (dflt : α) : α :=
  (alGet? d key).getD dflt

/-- Association-list update, the model of Python `dict[key] = value`:
replaces the binding of an existing key, otherwise appends. -/
def alInsert {α : Type} : List (String × α) → String → α → List (String × α)
  | [], k, v => [(k, v)]
  | (k2, v2) :: rest, k, v =>
      if k2 = k then (k, v) :: rest else (k2, v2) :: alInsert rest k v

/-- A decoded message: mapping of field name to value. -/
abbrev MsgDict := List (String × String)

/-- Python truthiness of a dict: non-empty. -/
def pyTruthyDict (d : MsgDict) : Bool := !d.isEmpty

/-- `NORMAL` / `COMPATIBLE` / `SAFE` encryption modes from `itchatmp.content`
(not under the sources given; the spec fixes them as a three-value enum). -/
inductive EncryptMode
  | NORMAL
  | COMPATIBLE
  | SAFE
deriving DecidableEq

/-- The server configuration: shared-secret token and encryption mode. -/
structure Config where
  token : String
  encryptMode : EncryptMode

/-- A Python exception is modelled by its message. -/
abbrev PyErr := String

/-- A registered handler: takes the decoded message, returns a reply
mapping, `none` (Python `None`, no reply), or raises. -/
abbrev Handler := MsgDict → Except PyErr (Option MsgDict)

/-- The query parameters of an incoming request; a missing parameter is the
empty string (`handler.get_argument(key, '')`). -/
structure Request where
  echostr : String
  timestamp : String
  nonce : String
  signature : String
  msg_signature : String

/-- The `core` object: configuration, storages, filter switch, thread-pool
size, the external allow-list filter and the handler registry
`_replyFnDict`. -/
structure Core where
  config : Config
  atStorage : String
  userStorage : String
  filterRequest : Bool
  threadPoolNumber : Nat
  filter_request : Request → Bool
  _replyFnDict : List (String × Handler)

/-- The external collaborators called by `register.py` but defined in other
modules (`itchatmp.controllers.oauth`, `itchatmp.views`): the signature
primitive (applied to the full positional argument list, as the Python
calls spread `*args`), the body codec and the envelope crypto. -/
structure Codec where
  oauth : List String → Bool
  deconstruct_msg : String → MsgDict
  construct_msg : MsgDict → String
  decrypt_msg : String → String → String → Config → MsgDict → MsgDict
  encrypt_msg : String → String → String → Config → MsgDict → String

/-- Modelled from the spec: `INCOME_MSG`, the fixed inbound-type
enumeration from `itchatmp.content` (not under the sources given; the
glossary lists text, image, event and kin). -/
def INCOME_MSG : List String :=
  ["text", "image", "voice", "video", "shortvideo", "location", "link", "event"]

/-- Modelled from the spec: `OUTCOME_MSG`, the outbound-allowed reply
types from `itchatmp.content` (not under the sources given). -/
def OUTCOME_MSG : List String :=
  ["text", "image", "voice", "video", "music", "news"]

/-- Modelled from the spec: `reply_msg_format` from `itchatmp.views` (not
under the sources given) normalizes a handler result; an absent reply
becomes an empty (falsy) mapping, a mapping passes through. -/
def reply_msg_format : Option MsgDict → MsgDict
  | none => []
  | some d => d

/-- `verify_echostr(core, handler)`: verify the handshake signature and
return the echostr if valid, `None` if not.  Mirrors the source exactly:
in the encrypted variant (`msg_signature` present) a failed check leaves
`echostr` unchanged, because that `if` has no `else` branch. -/
def verify_echostr (core : Core) (codec : Codec) (req : Request) : Option String :=
  if req.msg_signature ≠ "" then
    if codec.oauth [req.timestamp, req.nonce, req.msg_signature,
        req.echostr, core.config.token] then
      alGet? (codec.decrypt_msg req.timestamp req.nonce req.msg_signature
        core.config [("echostr", req.echostr)]) "echostr"
    else
      some req.echostr
  else
    if codec.oauth [req.timestamp, req.nonce, req.signature,
        core.config.token] then
      some req.echostr
    else
      none

/-- Python `x or y` for the handshake response: a `None` or empty-string
result falls back to the greeting. -/
def pyOrStr (o : Option String) (dflt : String) : String :=
  match o with
  | some s => if s = "" then dflt else s
  | none => dflt

/-- `get_fn(handler)`: the GET endpoint — greeting when filtered, else
`verify_echostr(...) or greeting`. -/
def get_fn (core : Core) (codec : Codec) (req : Request) : String :=
  if core.filterRequest ∧ ¬ core.filter_request req then
    "Greeting from itchatmp!"
  else
    pyOrStr (verify_echostr core codec req) "Greeting from itchatmp!"

/-- The `valid` flag computed inside `verify_message`: the signature check
for the variant selected by the presence of `msg_signature`. -/
def message_sig_valid (core : Core) (codec : Codec) (req : Request)
    (msgDict : MsgDict) : Bool :=
  if req.msg_signature ≠ "" then
    codec.oauth [req.timestamp, req.nonce, req.msg_signature,
      core.config.token, alGetD msgDict "Encrypt" ""]
  else
    codec.oauth [req.timestamp, req.nonce, req.signature, core.config.token]

/-- `verify_message(core, handler, msgDict)`: verify the POST signature and
return the (possibly decrypted) message; on failure return the empty
mapping `{}`. -/
def verify_message (core : Core) (codec : Codec) (req : Request)
    (msgDict : MsgDict) : MsgDict :=
  let tns :=
    if req.msg_signature ≠ "" then
      (req.timestamp, req.nonce, req.msg_signature)
    else
      (req.timestamp, req.nonce, req.signature)
  if message_sig_valid core codec req msgDict then
    if core.config.encryptMode = EncryptMode.SAFE then
      codec.decrypt_msg tns.1 tns.2.1 tns.2.2 core.config msgDict
    else
      msgDict
  else
    []

/-- `verify_reply(core, reply, msgDict, isActualEncrypt)`.  Mirrors the
source: an invalid or empty reply yields `(None, None)`; a valid reply has
`ToUserName`/`FromUserName` swapped in from the inbound message (raising
`KeyError` when those inbound fields are missing); when
`encryptMode == SAFE and isActualEncrypt` the source refers to the
variable `tns`, which is not in scope in this function, so that branch
raises `NameError` instead of encrypting. -/
def verify_reply (core : Core) (codec : Codec) (reply0 : Option MsgDict)
    (msgDict : MsgDict) (isActualEncrypt : Bool) :
    Except PyErr (Option String × Option MsgDict) :=
  let reply := reply_msg_format reply0
  if pyTruthyDict reply then
    match alGet? reply "MsgType" with
    | some msgType =>
      if msgType ∈ OUTCOME_MSG then
        match alGet? msgDict "FromUserName" with
        | none => .error "KeyError: FromUserName"
        | some fromUser =>
          match alGet? msgDict "ToUserName" with
          | none => .error "KeyError: ToUserName"
          | some toUser =>
            let reply := alInsert (alInsert reply "ToUserName" fromUser)
              "FromUserName" toUser
            if core.config.encryptMode = EncryptMode.SAFE ∧ isActualEncrypt then
              .error "NameError: name tns is not defined"
            else
              .ok (some (codec.construct_msg reply), some reply)
      else
        .ok (none, none)
    | none =>
      .ok (none, none)
  else
    .ok (none, none)

/-- `get_reply_fn(core, msgType)`: registry lookup with a no-reply lambda
as default. -/
def noOpHandler : Handler := fun _ => .ok none

/-- `core._replyFnDict.get(msgType, lambda x: None)`. -/
def get_reply_fn (core : Core) (msgType : String) : Handler :=
  (alGet? core._replyFnDict msgType).getD noOpHandler

/-- The observable outcome of `post_fn`: the HTTP body (`r`), the
structured reply for the asynchronous push path (`rawReply`), and — as
instrumentation for the never-invoked properties — the list of decoded
messages passed to a handler. -/
structure PostOutcome where
  body : Option String
  rawReply : Option MsgDict
  handlerCalls : List MsgDict
deriving DecidableEq

/-- `post_fn(handler)`: filter, decode, verify, dispatch, format.  The
`try`/`except` around the handler call catches exceptions from both the
`msgDict['MsgType']` subscript and the handler itself; `verify_reply`
is called outside that `try`, so its `NameError`/`KeyError` propagate.
The defensive `copy.deepcopy` is the identity in this pure model. -/
def post_fn (core : Core) (codec : Codec) (req : Request) (rawBody : String) :
    Except PyErr PostOutcome :=
  if core.filterRequest ∧ ¬ core.filter_request req then
    .ok ⟨none, none, []⟩
  else
    let msgDict0 := codec.deconstruct_msg rawBody
    let isActualEncrypt := (alGet? msgDict0 "Encrypt").isSome
    let msgDict := verify_message core codec req msgDict0
    if pyTruthyDict msgDict then
      match alGet? msgDict "MsgType" with
      | none => .ok ⟨none, none, []⟩
      | some msgType =>
        match (get_reply_fn core msgType) msgDict with
        | .error _ => .ok ⟨none, none, [msgDict]⟩
        | .ok reply =>
          match verify_reply core codec reply msgDict isActualEncrypt with
          | .error e => .error e
          | .ok (body, rawReply) => .ok ⟨body, rawReply, [msgDict]⟩
    else
      .ok ⟨none, none, []⟩

/-- `update_config(self, ...)`: each field is `argument or old`, so a
falsy argument (Python `None`, `False`, `0`, `''`) keeps the previous
value.  The config argument is an object, truthy whenever present; the
storage fields are modelled as strings, where the empty string is falsy
exactly as in Python. -/
def update_config (self : Core) (config : Option Config)
    (atStorage : Option String) (userStorage : Option String)
    (filterRequest : Option Bool) (threadPoolNumber : Option Nat) : Core :=
  { self with
    config := config.getD self.config
    atStorage :=
      match atStorage with
      | some s => if s = "" then self.atStorage else s
      | none => self.atStorage
    userStorage :=
      match userStorage with
      | some s => if s = "" then self.userStorage else s
      | none => self.userStorage
    filterRequest :=
      match filterRequest with
      | some true => true
      | _ => self.filterRequest
    threadPoolNumber :=
      match threadPoolNumber with
      | some 0 => self.threadPoolNumber
      | none => self.threadPoolNumber
      | some n => n }

/-- The `msgType` argument of `msg_register`: a single type or a list. -/
inductive MsgTypeArg
  | single (t : String)
  | list (ts : List String)

/-- `msgType if isinstance(msgType, list) else [msgType]`. -/
def msgTypeListOf : MsgTypeArg → List String
  | .single t => [t]
  | .list ts => ts

/-- The `for t in msgTypeList` loop of `_msg_register`: bind each valid
tag in order; at the first invalid tag raise `ParameterError`, keeping
the bindings already made. -/
def register_each (fn : Handler) :
    List (String × Handler) → List String →
    List (String × Handler) × Option PyErr
  | d, [] => (d, none)
  | d, t :: ts =>
      if t ∈ INCOME_MSG then
        register_each fn (alInsert d t fn) ts
      else
        (d, some ("Known type register \"" ++ t ++ "\""))

/-- `msg_register(self, msgType)` applied to a handler `fn`: returns the
updated core and the `ParameterError` raised, if any. -/
def msg_register (self : Core) (msgType : MsgTypeArg) (fn : Handler) :
    Core × Option PyErr :=
  let r := register_each fn self._replyFnDict (msgTypeListOf msgType)
  ({ self with _replyFnDict := r.1 }, r.2)

/-! ### Concrete instantiation of the external collaborators

The theorems below quantify over `Codec`; the following concrete codec is
used only to evaluate them (and the counterexamples) on explicit inputs. -/

/-- Byte-wise lexicographic comparison of character lists. -/
def charListLe : List Char → List Char → Bool
  | [], _ => true
  | _ :: _, [] => false
  | a :: as, b :: bs =>
      if a.toNat < b.toNat then true
      else if b.toNat < a.toNat then false
      else charListLe as bs

/-- Lexicographic comparison of strings. -/
def strLe (a b : String) : Bool := charListLe a.data b.data

/-- Insert into a sorted list of strings. -/
def insertSorted (x : String) : List String → List String
  | [] => [x]
  | y :: ys => if strLe x y then x :: y :: ys else y :: insertSorted x ys

/-- Insertion sort for lists of strings. -/
def sortStrings : List String → List String
  | [] => []
  | x :: xs => insertSorted x (sortStrings xs)

/-- Modelled from the spec: the external signature primitive of
`itchatmp.controllers.oauth` (not under the sources given) computes the
expected signature over the sorted tuple of the signature material. -/
def signModel (parts : List String) : String :=
  "sig:" ++ String.intercalate "," (sortStrings parts)

/-- Modelled from the spec: the `oauth` check — the positional arguments
are timestamp, nonce, the supplied signature, then the remaining material
(token, and echostr or Encrypt where applicable); valid when the supplied
signature equals the computed one. -/
def oauthModel : List String → Bool
  | timestamp :: nonce :: supplied :: rest =>
      supplied == signModel (timestamp :: nonce :: rest)
  | _ => false

/-- Split a character list on a separator. -/
def splitCharsOn (sep : Char) : List Char → List (List Char)
  | [] => [[]]
  | c :: cs =>
      let rest := splitCharsOn sep cs
      if c = sep then [] :: rest
      else
        match rest with
        | [] => [[c]]
        | r :: rs => (c :: r) :: rs

/-- Split a string on a separator character. -/
def splitStr (sep : Char) (s : String) : List String :=
  (splitCharsOn sep s.data).map (fun cs => String.mk cs)

/-- Parse one `key=value` pair. -/
def parsePair (s : String) : Option (String × String) :=
  match splitStr '=' s with
  | [k, v] => some (k, v)
  | _ => none

/-- Modelled from the spec: the body deserializer of `itchatmp.views`
(not under the sources given) — a `key=value;...` reading of the
serialized envelope, enough to instantiate `Codec.deconstruct_msg`. -/
def deconstructModel (body : String) : MsgDict :=
  (splitStr ';' body).filterMap parsePair

/-- Modelled from the spec: the serializer of `itchatmp.views` (not under
the sources given). -/
def constructModel (d : MsgDict) : String :=
  String.intercalate ";" (d.map (fun kv => kv.1 ++ "=" ++ kv.2))

/-- A concrete codec built from the modelled external primitives. -/
def codecEx : Codec where
  oauth := oauthModel
  deconstruct_msg := deconstructModel
  construct_msg := constructModel
  decrypt_msg := fun _ _ _ _ d => d.map (fun kv => (kv.1, "dec:" ++ kv.2))
  encrypt_msg := fun _ _ _ _ d => "enc:" ++ constructModel d

/-- A handler replying with a text message tagged A. -/
def handlerA : Handler := fun _ => .ok (some [("MsgType", "text"), ("Content", "A")])

/-- A handler replying with a text message tagged B. -/
def handlerB : Handler := fun _ => .ok (some [("MsgType", "text"), ("Content", "B")])

/-- A handler that raises. -/
def handlerBoom : Handler := fun _ => .error "ValueError: boom"

/-- A concrete core with the given encryption mode and registry; the
allow-list switch is off. -/
def coreEx (mode : EncryptMode) (dict : List (String × Handler)) : Core where
  config := { token := "tok", encryptMode := mode }
  atStorage := "atStorage0"
  userStorage := "userStorage0"
  filterRequest := false
  threadPoolNumber := 4
  filter_request := fun _ => true
  _replyFnDict := dict

/-- A handshake request in the encrypted variant whose `msg_signature`
does not match the signature computed over the material. -/
def reqC3 : Request where
  echostr := "ENCECHO"
  timestamp := "123"
  nonce := "456"
  signature := ""
  msg_signature := "badsig"

/-- A POST request in the plain variant whose signature is the one
computed over the sorted tuple of timestamp, nonce and token. -/
def reqPlainValid : Request where
  echostr := ""
  timestamp := "1"
  nonce := "2"
  signature := "sig:1,2,tok"
  msg_signature := ""

/-- A POST request in the plain variant with a wrong signature. -/
def reqPlainBad : Request where
  echostr := ""
  timestamp := "1"
  nonce := "2"
  signature := "nope"
  msg_signature := ""

/-- A serialized plain text message body. -/
def bodyText : String := "MsgType=text;FromUserName=user;ToUserName=serv"

/-- The decoding of `bodyText` under `codecEx`. -/
def mdText : MsgDict :=
  [("MsgType", "text"), ("FromUserName", "user"), ("ToUserName", "serv")]

/-! ### Claim theorems -/

/-- C2: for a request whose raw body carried an `Encrypt` field
(`isActualEncrypt = true`) and a valid handler reply, the code does not
encrypt the reply regardless of the configured mode as claimed: with
`encryptMode = NORMAL` it serializes the reply in plain form, and in the
only branch that would encrypt (`encryptMode = SAFE`) it raises
`NameError` because `tns` is not in scope inside `verify_reply`. -/
theorem C2_encrypted_request_reply_paths :
    verify_reply (coreEx EncryptMode.SAFE []) codecEx
        (some [("MsgType", "text"), ("Content", "hi")])
        [("FromUserName", "user"), ("ToUserName", "serv")] true
      = .error "NameError: name tns is not defined"
    ∧ verify_reply (coreEx EncryptMode.NORMAL []) codecEx
        (some [("MsgType", "text"), ("Content", "hi")])
        [("FromUserName", "user"), ("ToUserName", "serv")] true
      = .ok (some "MsgType=text;Content=hi;ToUserName=user;FromUserName=serv",
          some [("MsgType", "text"), ("Content", "hi"), ("ToUserName", "user"),
            ("FromUserName", "serv")]) :=
  ⟨by decide, by decide⟩

/-- C3 counterexample: a GET handshake in the encrypted variant whose
supplied `msg_signature` does not match the computed signature is not
answered with the fixed greeting as claimed: the failed check in
`verify_echostr` has no else branch, leaves `echostr` unchanged, and the
response is the echostr ciphertext itself. -/
theorem C3_counterexample :
    codecEx.oauth ["123", "456", "badsig", "ENCECHO", "tok"] = false
    ∧ get_fn (coreEx EncryptMode.NORMAL []) codecEx reqC3 = "ENCECHO"
    ∧ ("ENCECHO" : String) ≠ "Greeting from itchatmp!" :=
  ⟨by decide, by decide, by decide⟩

/-- C3 (amended): on a GET handshake not dropped by the allow-list
filter: in the plain variant, an invalid signature yields the fixed
greeting and a valid one yields `echostr` unchanged (greeting when it is
empty); in the encrypted variant, an invalid `msg_signature` leaves
`echostr` unchanged so the response is the echostr ciphertext (greeting
only when it is empty), and a valid one yields the decrypted echostr
plaintext (greeting when absent or empty). -/
theorem C3_handshake_amended (core : Core) (codec : Codec) (req : Request)
    (hf : ¬ (core.filterRequest ∧ ¬ core.filter_request req)) :
    (req.msg_signature = "" →
      codec.oauth [req.timestamp, req.nonce, req.signature, core.config.token] = false →
      get_fn core codec req = "Greeting from itchatmp!")
    ∧ (req.msg_signature = "" →
      codec.oauth [req.timestamp, req.nonce, req.signature, core.config.token] = true →
      req.echostr ≠ "" →
      get_fn core codec req = req.echostr)
    ∧ (req.msg_signature ≠ "" →
      codec.oauth [req.timestamp, req.nonce, req.msg_signature, req.echostr,
        core.config.token] = false →
      req.echostr ≠ "" →
      get_fn core codec req = req.echostr)
    ∧ (req.msg_signature ≠ "" →
      codec.oauth [req.timestamp, req.nonce, req.msg_signature, req.echostr,
        core.config.token] = true →
      get_fn core codec req =
        pyOrStr (alGet? (codec.decrypt_msg req.timestamp req.nonce req.msg_signature
          core.config [("echostr", req.echostr)]) "echostr")
          "Greeting from itchatmp!") := by
  refine ⟨?_, ?_, ?_, ?_⟩
  · intro hm ho
    unfold get_fn
    rw [if_neg hf]
    simp [verify_echostr, pyOrStr, hm, ho]
  · intro hm ho he
    unfold get_fn
    rw [if_neg hf]
    simp [verify_echostr, pyOrStr, hm, ho, he]
  · intro hm ho he
    unfold get_fn
    rw [if_neg hf]
    simp [verify_echostr, pyOrStr, hm, ho, he]
  · intro hm ho
    unfold get_fn
    rw [if_neg hf]
    simp [verify_echostr, hm, ho]

/-- C3 witness: the amended theorem evaluated on the concrete encrypted
variant request with a mismatching signature. -/
theorem C3_handshake_amended_witness :
    get_fn (coreEx EncryptMode.NORMAL []) codecEx reqC3 = "ENCECHO" :=
  (C3_handshake_amended (coreEx EncryptMode.NORMAL []) codecEx reqC3
    (by decide)).2.2.1 (by decide) (by decide) (by decide)

/-- C4: on a POST whose signature check fails (and which is not dropped by
the allow-list filter), `verify_message` returns the explicit empty
mapping, and `post_fn` returns an empty body, no structured reply for the
push path, and an empty handler-invocation trace: no registered handler is
ever invoked. -/
theorem C4_invalid_signature_rejected (core : Core) (codec : Codec)
    (req : Request) (rawBody : String)
    (hf : ¬ (core.filterRequest ∧ ¬ core.filter_request req))
    (hsig : message_sig_valid core codec req (codec.deconstruct_msg rawBody) = false) :
    verify_message core codec req (codec.deconstruct_msg rawBody) = []
    ∧ post_fn core codec req rawBody = .ok ⟨none, none, []⟩ := by
  have hvm : verify_message core codec req (codec.deconstruct_msg rawBody) = [] := by
    unfold verify_message
    simp [hsig]
  refine ⟨hvm, ?_⟩
  unfold post_fn
  rw [if_neg hf]
  simp [hvm, show pyTruthyDict ([] : MsgDict) = false from rfl]

/-- C4 witness: the theorem evaluated on a concrete plain-variant POST
with a wrong signature. -/
theorem C4_invalid_signature_rejected_witness :
    verify_message (coreEx EncryptMode.NORMAL [("text", handlerA)]) codecEx
        reqPlainBad (codecEx.deconstruct_msg bodyText) = []
    ∧ post_fn (coreEx EncryptMode.NORMAL [("text", handlerA)]) codecEx
        reqPlainBad bodyText = .ok ⟨none, none, []⟩ :=
  C4_invalid_signature_rejected (coreEx EncryptMode.NORMAL [("text", handlerA)])
    codecEx reqPlainBad bodyText (by decide) (by decide)

/-- C5: when the handler looked up for the decoded message raises, the
dispatch pipeline catches it and treats the request as having produced no
reply: `post_fn` still returns `.ok` (nothing propagates to the HTTP
layer) with an empty body and no structured reply, while the trace
records the one handler invocation. -/
theorem C5_handler_exception_contained (core : Core) (codec : Codec)
    (req : Request) (rawBody : String) (mt : String) (e : PyErr)
    (hf : ¬ (core.filterRequest ∧ ¬ core.filter_request req))
    (hverify : pyTruthyDict
      (verify_message core codec req (codec.deconstruct_msg rawBody)) = true)
    (hmt : alGet? (verify_message core codec req (codec.deconstruct_msg rawBody))
      "MsgType" = some mt)
    (hraise : get_reply_fn core mt
      (verify_message core codec req (codec.deconstruct_msg rawBody)) = .error e) :
    post_fn core codec req rawBody
      = .ok ⟨none, none,
          [verify_message core codec req (codec.deconstruct_msg rawBody)]⟩ := by
  unfold post_fn
  rw [if_neg hf]
  simp [hverify, hmt, hraise]

/-- C5 witness: the theorem evaluated with a raising handler registered
for `text` under a valid plain signature. -/
theorem C5_handler_exception_contained_witness :
    post_fn (coreEx EncryptMode.NORMAL [("text", handlerBoom)]) codecEx
        reqPlainValid bodyText = .ok ⟨none, none, [mdText]⟩ :=
  (C5_handler_exception_contained (coreEx EncryptMode.NORMAL [("text", handlerBoom)])
    codecEx reqPlainValid bodyText "text" "ValueError: boom"
    (by decide) (by decide) (by decide) (by decide)).trans (by decide)

/-- C6: an inbound type with no registered handler resolves to the no-op
lambda, and a POST with a valid signature and such a `MsgType` yields an
empty body and no structured reply for the push path. -/
theorem C6_unregistered_type_degrades (core : Core) (codec : Codec)
    (req : Request) (rawBody : String) (mt : String)
    (hf : ¬ (core.filterRequest ∧ ¬ core.filter_request req))
    (hverify : pyTruthyDict
      (verify_message core codec req (codec.deconstruct_msg rawBody)) = true)
    (hmt : alGet? (verify_message core codec req (codec.deconstruct_msg rawBody))
      "MsgType" = some mt)
    (hnone : alGet? core._replyFnDict mt = none) :
    get_reply_fn core mt = noOpHandler
    ∧ post_fn core codec req rawBody
      = .ok ⟨none, none,
          [verify_message core codec req (codec.deconstruct_msg rawBody)]⟩ := by
  have hlook : get_reply_fn core mt = noOpHandler := by
    unfold get_reply_fn
    rw [hnone]
    rfl
  refine ⟨hlook, ?_⟩
  unfold post_fn
  rw [if_neg hf]
  simp [hverify, hmt, hlook, noOpHandler, verify_reply, reply_msg_format,
    show pyTruthyDict ([] : MsgDict) = false from rfl]

/-- C6 witness: the theorem evaluated with an empty registry under a valid
plain signature and `MsgType=text`. -/
theorem C6_unregistered_type_degrades_witness :
    get_reply_fn (coreEx EncryptMode.NORMAL []) "text" = noOpHandler
    ∧ post_fn (coreEx EncryptMode.NORMAL []) codecEx reqPlainValid bodyText
      = .ok ⟨none, none, [mdText]⟩ := by
  have h := C6_unregistered_type_degrades (coreEx EncryptMode.NORMAL []) codecEx
    reqPlainValid bodyText "text" (by decide) (by decide) (by decide) rfl
  exact ⟨h.1, h.2.trans (by decide)⟩

/-- Updating a key and reading it back yields the new value. -/
theorem alGet_alInsert_self {α : Type} (d : List (String × α)) (k : String) (v : α) :
    alGet? (alInsert d k v) k = some v := by
  induction d with
  | nil => simp [alInsert, alGet?]
  | cons p rest ih =>
    obtain ⟨k2, v2⟩ := p
    by_cases h : k2 = k
    · subst h
      simp [alInsert, alGet?]
    · simp [alInsert, alGet?, h, ih]

/-- Updating one key leaves the lookup of any other key unchanged. -/
theorem alGet_alInsert_other {α : Type} (d : List (String × α)) (k u : String)
    (v : α) (h : k ≠ u) :
    alGet? (alInsert d k v) u = alGet? d u := by
  induction d with
  | nil => simp [alInsert, alGet?, h]
  | cons p rest ih =>
    obtain ⟨k2, v2⟩ := p
    by_cases h2 : k2 = k
    · subst h2
      simp [alInsert, alGet?, h, ih]
    · by_cases hu : k2 = u <;> simp [alInsert, alGet?, h2, hu, ih, Ne.symm h]

/-- The registration loop raises no error when every tag is valid. -/
theorem register_each_ok (fn : Handler) :
    ∀ (ts : List String) (d : List (String × Handler)),
      (∀ v ∈ ts, v ∈ INCOME_MSG) → (register_each fn d ts).2 = none := by
  intro ts
  induction ts with
  | nil => intro d _; rfl
  | cons t rest ih =>
    intro d hall
    have ht : t ∈ INCOME_MSG := hall t (List.mem_cons_self t rest)
    have hstep : register_each fn d (t :: rest)
        = register_each fn (alInsert d t fn) rest := by
      simp [register_each, ht]
    rw [hstep]
    exact ih _ (fun v hv => hall v (List.mem_cons_of_mem t hv))

/-- After the registration loop over valid tags, every tag of the list —
and every key that was already bound to `fn` — looks up to `fn`. -/
theorem register_each_lookup (fn : Handler) :
    ∀ (ts : List String) (d : List (String × Handler)) (u : String),
      (∀ v ∈ ts, v ∈ INCOME_MSG) →
      (u ∈ ts ∨ alGet? d u = some fn) →
      alGet? (register_each fn d ts).1 u = some fn := by
  intro ts
  induction ts with
  | nil =>
    intro d u _ h
    rcases h with h | h
    · exact absurd h (List.not_mem_nil u)
    · exact h
  | cons t rest ih =>
    intro d u hall h
    have ht : t ∈ INCOME_MSG := hall t (List.mem_cons_self t rest)
    have hstep : register_each fn d (t :: rest)
        = register_each fn (alInsert d t fn) rest := by
      simp [register_each, ht]
    rw [hstep]
    apply ih _ u (fun v hv => hall v (List.mem_cons_of_mem t hv))
    rcases h with h | h
    · rcases List.mem_cons.mp h with rfl | hmem
      · exact Or.inr (alGet_alInsert_self d u fn)
      · exact Or.inl hmem
    · by_cases hku : t = u
      · subst hku
        exact Or.inr (alGet_alInsert_self d t fn)
      · exact Or.inr ((alGet_alInsert_other d t u fn hku).trans h)

/-- The registration loop raises when some tag of the list is invalid. -/
theorem register_each_error_of_invalid (fn : Handler) :
    ∀ (ts : List String) (d : List (String × Handler)),
      (∃ t ∈ ts, t ∉ INCOME_MSG) → ((register_each fn d ts).2).isSome = true := by
  intro ts
  induction ts with
  | nil =>
    intro d h
    rcases h with ⟨t, ht, _⟩
    exact absurd ht (List.not_mem_nil t)
  | cons t rest ih =>
    intro d h
    by_cases htI : t ∈ INCOME_MSG
    · have hstep : register_each fn d (t :: rest)
          = register_each fn (alInsert d t fn) rest := by
        simp [register_each, htI]
      rw [hstep]
      apply ih
      rcases h with ⟨v, hv, hvI⟩
      rcases List.mem_cons.mp hv with rfl | hmem
      · exact absurd htI hvI
      · exact ⟨v, hmem, hvI⟩
    · have hstep : register_each fn d (t :: rest)
          = (d, some ("Known type register \"" ++ t ++ "\"")) := by
        simp [register_each, htI]
      rw [hstep]
      rfl

/-- Running the loop over valid tags followed by an invalid one stops at
the invalid tag with the bindings of the valid prefix already made. -/
theorem register_each_append_invalid (fn : Handler) (bad : String)
    (post : List String) (hbad : bad ∉ INCOME_MSG) :
    ∀ (pre : List String) (d : List (String × Handler)),
      (∀ v ∈ pre, v ∈ INCOME_MSG) →
      register_each fn d (pre ++ bad :: post)
        = ((register_each fn d pre).1,
            some ("Known type register \"" ++ bad ++ "\"")) := by
  intro pre
  induction pre with
  | nil =>
    intro d _
    simp [register_each, hbad]
  | cons t rest ih =>
    intro d hall
    have ht : t ∈ INCOME_MSG := hall t (List.mem_cons_self t rest)
    have h1 : register_each fn d ((t :: rest) ++ bad :: post)
        = register_each fn (alInsert d t fn) (rest ++ bad :: post) := by
      simp [register_each, ht]
    have h2 : register_each fn d (t :: rest)
        = register_each fn (alInsert d t fn) rest := by
      simp [register_each, ht]
    rw [h1, h2, ih _ (fun v hv => hall v (List.mem_cons_of_mem t hv))]

/-- C7: registering a tag (or a list containing a tag) outside the fixed
inbound-type enumeration raises `ParameterError`, surfaced to the caller
rather than silently ignored. -/
theorem C7_unknown_tag_raises (self : Core) (msgType : MsgTypeArg) (fn : Handler)
    (h : ∃ t ∈ msgTypeListOf msgType, t ∉ INCOME_MSG) :
    ((msg_register self msgType fn).2).isSome = true :=
  register_each_error_of_invalid fn (msgTypeListOf msgType) self._replyFnDict h

/-- C7 witness: registering the unknown tag `bogus` raises. -/
theorem C7_unknown_tag_raises_witness :
    ((msg_register (coreEx EncryptMode.NORMAL []) (.single "bogus") handlerA).2).isSome
      = true :=
  C7_unknown_tag_raises (coreEx EncryptMode.NORMAL []) (.single "bogus") handlerA
    ⟨"bogus", by decide, by decide⟩

/-- C8: registering the same valid tag twice leaves only the second
handler to be looked up; registering a list of valid tags raises no error
and binds the same handler under every tag of the list. -/
theorem C8_later_registration_wins (self : Core) (t : String) (f1 f2 : Handler)
    (ts : List String) (fn : Handler)
    (ht : t ∈ INCOME_MSG) (hts : ∀ u ∈ ts, u ∈ INCOME_MSG) :
    get_reply_fn (msg_register (msg_register self (.single t) f1).1 (.single t) f2).1 t
      = f2
    ∧ (msg_register self (.list ts) fn).2 = none
    ∧ ∀ u ∈ ts, get_reply_fn (msg_register self (.list ts) fn).1 u = fn := by
  refine ⟨?_, ?_, ?_⟩
  · unfold get_reply_fn
    have hd : (msg_register (msg_register self (.single t) f1).1 (.single t) f2).1._replyFnDict
        = alInsert (alInsert self._replyFnDict t f1) t f2 := by
      simp [msg_register, msgTypeListOf, register_each, ht]
    rw [hd, alGet_alInsert_self]
    rfl
  · exact register_each_ok fn ts self._replyFnDict hts
  · intro u hu
    unfold get_reply_fn
    have hd : alGet? (msg_register self (.list ts) fn).1._replyFnDict u = some fn :=
      register_each_lookup fn ts self._replyFnDict u hts (Or.inl hu)
    rw [hd]
    rfl

/-- C8 witness: after registering `handlerA` then `handlerB` for `text`,
lookup yields `handlerB`; registering `handlerA` for the list
`[text, image]` binds it under `image` as well. -/
theorem C8_later_registration_wins_witness :
    get_reply_fn (msg_register (msg_register (coreEx EncryptMode.NORMAL [])
        (.single "text") handlerA).1 (.single "text") handlerB).1 "text" = handlerB
    ∧ (msg_register (coreEx EncryptMode.NORMAL []) (.list ["text", "image"]) handlerA).2
      = none
    ∧ get_reply_fn (msg_register (coreEx EncryptMode.NORMAL [])
        (.list ["text", "image"]) handlerA).1 "image" = handlerA := by
  have h := C8_later_registration_wins (coreEx EncryptMode.NORMAL []) "text"
    handlerA handlerB ["text", "image"] handlerA (by decide) (by decide)
  exact ⟨h.1, h.2.1, h.2.2 "image" (by decide)⟩

/-- C9: registration is not atomic on error — for a list whose valid tags
precede the first invalid one, `ParameterError` is raised at the invalid
tag and the bindings made for the preceding valid tags remain in the
registry. -/
theorem C9_partial_registration_kept (self : Core) (fn : Handler)
    (pre : List String) (bad : String) (post : List String)
    (hpre : ∀ v ∈ pre, v ∈ INCOME_MSG) (hbad : bad ∉ INCOME_MSG) :
    (msg_register self (.list (pre ++ bad :: post)) fn).2
      = some ("Known type register \"" ++ bad ++ "\"")
    ∧ ∀ u ∈ pre,
        get_reply_fn (msg_register self (.list (pre ++ bad :: post)) fn).1 u = fn := by
  have happ := register_each_append_invalid fn bad post hbad pre self._replyFnDict hpre
  constructor
  · show (register_each fn self._replyFnDict (pre ++ bad :: post)).2 = _
    rw [happ]
  · intro u hu
    unfold get_reply_fn
    have hd : alGet? (msg_register self (.list (pre ++ bad :: post)) fn).1._replyFnDict u
        = some fn := by
      show alGet? (register_each fn self._replyFnDict (pre ++ bad :: post)).1 u = some fn
      rw [happ]
      exact register_each_lookup fn pre self._replyFnDict u hpre (Or.inl hu)
    rw [hd]
    rfl

/-- C9 witness: registering for `[text, bogus, image]` raises at `bogus`
while the binding for `text` remains. -/
theorem C9_partial_registration_kept_witness :
    (msg_register (coreEx EncryptMode.NORMAL [])
        (.list ["text", "bogus", "image"]) handlerA).2
      = some "Known type register \"bogus\""
    ∧ get_reply_fn (msg_register (coreEx EncryptMode.NORMAL [])
        (.list ["text", "bogus", "image"]) handlerA).1 "text" = handlerA := by
  have h := C9_partial_registration_kept (coreEx EncryptMode.NORMAL []) handlerA
    ["text"] "bogus" ["image"] (by decide) (by decide)
  exact ⟨h.1.trans (by decide), h.2 "text" (by decide)⟩

/-- A concrete core with the allow-list filter switched on. -/
def coreFilterOn : Core where
  config := { token := "tok", encryptMode := EncryptMode.NORMAL }
  atStorage := "atStorage0"
  userStorage := "userStorage0"
  filterRequest := true
  threadPoolNumber := 4
  filter_request := fun _ => true
  _replyFnDict := []

/-- C10: every `update_config` field is `argument or old`, so a falsy
argument (`None`, `False`, `0`, the empty string) keeps the previous
value and only truthy arguments replace it; in particular `filterRequest`
can never be switched from `True` to `False` and `threadPoolNumber` can
never be set to `0`. -/
theorem C10_update_config_frame (self : Core) (c : Option Config)
    (a u : Option String) (fr : Option Bool) (tp : Option Nat) :
    (c = none → (update_config self c a u fr tp).config = self.config)
    ∧ ((a = none ∨ a = some "") →
        (update_config self c a u fr tp).atStorage = self.atStorage)
    ∧ ((u = none ∨ u = some "") →
        (update_config self c a u fr tp).userStorage = self.userStorage)
    ∧ ((fr = none ∨ fr = some false) →
        (update_config self c a u fr tp).filterRequest = self.filterRequest)
    ∧ ((tp = none ∨ tp = some 0) →
        (update_config self c a u fr tp).threadPoolNumber = self.threadPoolNumber)
    ∧ (self.filterRequest = true → (update_config self c a u fr tp).filterRequest = true)
    ∧ (0 < self.threadPoolNumber → 0 < (update_config self c a u fr tp).threadPoolNumber)
    ∧ (∀ cfg, c = some cfg → (update_config self c a u fr tp).config = cfg)
    ∧ (∀ s, a = some s → s ≠ "" → (update_config self c a u fr tp).atStorage = s)
    ∧ (∀ s, u = some s → s ≠ "" → (update_config self c a u fr tp).userStorage = s)
    ∧ (fr = some true → (update_config self c a u fr tp).filterRequest = true)
    ∧ (∀ n, tp = some n → n ≠ 0 →
        (update_config self c a u fr tp).threadPoolNumber = n) := by
  refine ⟨?_, ?_, ?_, ?_, ?_, ?_, ?_, ?_, ?_, ?_, ?_, ?_⟩
  · intro h; subst h; simp [update_config]
  · intro h
    rcases h with h | h <;> subst h <;> simp [update_config]
  · intro h
    rcases h with h | h <;> subst h <;> simp [update_config]
  · intro h
    rcases h with h | h <;> subst h <;> simp [update_config]
  · intro h
    rcases h with h | h <;> subst h <;> simp [update_config]
  · intro h
    rcases fr with _ | b
    · simpa [update_config] using h
    · cases b <;> simp [update_config, h]
  · intro h
    rcases tp with _ | n
    · simpa [update_config] using h
    · rcases n with _ | m <;> simp [update_config, h]
  · intro cfg h; subst h; simp [update_config]
  · intro s h hs; subst h; simp [update_config, hs]
  · intro s h hs; subst h; simp [update_config, hs]
  · intro h; subst h; simp [update_config]
  · intro n h hn
    subst h
    rcases n with _ | m
    · exact absurd rfl hn
    · simp [update_config]

/-- C10 witness: with the filter on and a pool of 4, passing `False` for
`filterRequest`, `0` for `threadPoolNumber` and the falsy empty string
for both storages changes none of them, and a `None` config keeps the old
configuration; a non-empty storage string does replace the field. -/
theorem C10_update_config_frame_witness :
    (update_config coreFilterOn none (some "") (some "") (some false)
        (some 0)).filterRequest = true
    ∧ (update_config coreFilterOn none (some "") (some "") (some false)
        (some 0)).threadPoolNumber = 4
    ∧ (update_config coreFilterOn none (some "") (some "") (some false)
        (some 0)).config = coreFilterOn.config
    ∧ (update_config coreFilterOn none (some "") (some "") (some false)
        (some 0)).atStorage = "atStorage0"
    ∧ (update_config coreFilterOn none (some "") (some "") (some false)
        (some 0)).userStorage = "userStorage0"
    ∧ (update_config coreFilterOn none (some "newStore") none none
        none).atStorage = "newStore" := by
  obtain ⟨h1, h2, h3, h4, h5, h6, h7, h8, h9, h10, h11, h12⟩ :=
    C10_update_config_frame coreFilterOn none (some "") (some "") (some false) (some 0)
  obtain ⟨-, -, -, -, -, -, -, -, g9, -, -, -⟩ :=
    C10_update_config_frame coreFilterOn none (some "newStore") none none none
  exact ⟨h6 rfl, (h5 (Or.inr rfl)).trans rfl, h1 rfl,
    (h2 (Or.inr rfl)).trans rfl, (h3 (Or.inr rfl)).trans rfl,
    g9 "newStore" rfl (by decide)⟩

end Itchatmp
